import Mathlib

/-!
Verification of the LUMIX backend (movie catalog: users, movies, favorites,
reviews) against its design document.  The TypeScript sources are shallowly
embedded: Mongoose collections become Lean lists, each controller method
becomes a pure function from the pre-state and the request data to the HTTP
response and the post-state, and thrown exceptions become `Except.error`.

External libraries are modelled abstractly but faithfully to how the code
uses them:
* `jsonwebtoken` — a token is an opaque record of its payload (`userId`),
  the signing secret and its expiry instant; `jwt.verify` succeeds exactly
  when the secret matches and the token is not expired.
* `bcrypt` — hashing is an injective tagging of the plaintext; `compare`
  succeeds exactly on the hash of the given plaintext.
* Mongoose validation — schema validators run on `save()` and on
  `findByIdAndUpdate` with `runValidators: true` (as `GlobalDao.update`
  passes); they do NOT run on `ReviewDAO.updateByUserAndMovie`, whose
  `findOneAndUpdate` call passes no `runValidators` option.
* The mail dispatch in `forgotPassword` (SendGrid) is treated as succeeding;
  an underlying store failure is injected where a claim needs it, as an
  explicit `Option String` carrying the internal detail text.
-/

namespace Lumix

/-- An HTTP response as the controllers produce it: a status code and the
`message` field of the JSON body. -/
structure HttpResponse where
  status : Nat
  message : String
deriving DecidableEq

/-- Model of a signed JWT (`jsonwebtoken`): the payload (`userId`), the
secret it was signed with, and its expiry instant in milliseconds. -/
structure JwtToken where
  userId : String
  secret : String
  issuedAt : Nat
  expiresAt : Nat
deriving DecidableEq

/-- `jwt.sign({ userId }, secret, { expiresIn })`. -/
def jwtSign (userId secret : String) (now durationMs : Nat) : JwtToken :=
  { userId := userId, secret := secret, issuedAt := now, expiresAt := now + durationMs }

/-- `jwt.verify(token, secret)`: yields the payload's `userId` when the
secret matches and the token has not expired, otherwise fails (`none`). -/
def jwtVerify (t : JwtToken) (secret : String) (now : Nat) : Option String :=
  if t.secret = secret ∧ now < t.expiresAt then some t.userId else none

/-- Model of `bcrypt.hash(plain, 10)`: an injective tagging of the
plaintext, standing for the salted one-way hash. -/
def bcryptHash (plain : String) : String :=
  "$2b$10$" ++ plain

/-- Model of `bcrypt.compare(plain, hashed)`: true exactly when `hashed`
is the hash of `plain`. -/
def bcryptCompare (plain hashed : String) : Bool :=
  hashed == bcryptHash plain

/-- A document of the `users` collection (src/unnamed/part_004, UserSchema). -/
structure User where
  _id : String
  firstName : String
  lastName : String
  age : Nat
  email : String
  password : String
  resetPasswordToken : Option JwtToken
  resetPasswordExpires : Option Nat
deriving DecidableEq

/-- A document of the `reviews` collection (src/api/models/Review.ts). -/
structure Review where
  _id : String
  userId : String
  movieId : String
  comment : String
  rating : ℚ
deriving DecidableEq

/-- A document of the `favorites` collection (src/api/models/Favorite.ts). -/
structure Favorite where
  _id : String
  userId : String
  movieId : String
deriving DecidableEq

/-- The character class `[A-Z]` of the password regex. -/
def isUppercaseChar (c : Char) : Bool :=
  decide (Char.ofNat 65 ≤ c) && decide (c ≤ Char.ofNat 90)

/-- The character class `[a-z]` inside the allowed-character class. -/
def isLowercaseChar (c : Char) : Bool :=
  decide (Char.ofNat 97 ≤ c) && decide (c ≤ Char.ofNat 122)

/-- The character class `\d` of the password regex. -/
def isDigitChar (c : Char) : Bool :=
  decide (Char.ofNat 48 ≤ c) && decide (c ≤ Char.ofNat 57)

/-- The special characters listed in the password regex of
`UserController.passwordValidation` and of the `UserSchema.password`
`match` validator.  Quote, apostrophe, backslash and the curly brackets are
written via `Char.ofNat` (34, 39, 92, 123, 125). -/
def specialChars : List Char :=
  ['!', '@', '#', '$', '%', '^', '&', '*', '(', ')', '_', '+', '-', '=',
   '[', ']', Char.ofNat 123, Char.ofNat 125, ';', Char.ofNat 39, ':',
   Char.ofNat 34, Char.ofNat 92, '|', ',', '.', '<', '>', '/', '?']

/-- Membership in the special-character class of the password regex. -/
def isSpecialChar (c : Char) : Bool :=
  specialChars.contains c

/-- The whole-string character class of the password regex
(`[A-Za-z\d...]`). -/
def isAllowedPasswordChar (c : Char) : Bool :=
  isUppercaseChar c || isLowercaseChar c || isDigitChar c || isSpecialChar c

/-- `passwordRegex.test(p)` for the anchored regex
`^(?=.*[A-Z])(?=.*\d)(?=.*[special])[allowed]\x7b8,\x7d$`: at least one
uppercase letter, one digit and one special character, every character in
the allowed class, and at least 8 characters. -/
def passwordRegexTest (p : String) : Bool :=
  p.data.any isUppercaseChar && p.data.any isDigitChar && p.data.any isSpecialChar &&
    p.data.all isAllowedPasswordChar && decide (8 ≤ p.length)

/-- `UserController.passwordValidation`: password must equal its
confirmation and pass the complexity regex; returns the error message or
`null`. -/
def passwordValidation (password confirmPassword : String) : Option String :=
  if password ≠ confirmPassword then
    some "La contraseña y la confirmación de contraseña no coinciden"
  else if !(passwordRegexTest password) then
    some "La contraseña no es válida"
  else
    none

/-- The validators of `UserSchema` (required non-empty names and email,
`age ≥ 13`, password `minlength 8` and the complexity `match` regex), run
by Mongoose on `save()` and on updates with `runValidators: true`. -/
def userValid (u : User) : Bool :=
  decide (0 < u.firstName.length) && decide (0 < u.lastName.length) &&
    decide (13 ≤ u.age) && decide (0 < u.email.length) &&
    decide (8 ≤ u.password.length) && passwordRegexTest u.password

/-- The validators of `ReviewSchema`: required non-empty `userId`,
`movieId`, comment between 3 and 1000 characters, rating between 1 and 5. -/
def reviewValid (r : Review) : Bool :=
  decide (0 < r.userId.length) && decide (0 < r.movieId.length) &&
    decide (3 ≤ r.comment.length) && decide (r.comment.length ≤ 1000) &&
    decide (1 ≤ r.rating) && decide (r.rating ≤ 5)

/-- The `trim: true` setter of `ReviewSchema.comment` (JavaScript
`String.prototype.trim`): strips whitespace from both ends. -/
def strTrim (s : String) : String :=
  ⟨((s.data.dropWhile Char.isWhitespace).reverse.dropWhile Char.isWhitespace).reverse⟩

/-- `UserDAO.readByEmail`: `User.findOne({ email })`. -/
def readByEmail (store : List User) (emailToSearch : String) : Option User :=
  store.find? (fun u => u.email == emailToSearch)

/-- `UserDAO.readByResetToken`: `User.findOne({ email, resetPasswordToken:
token, resetPasswordExpires: { $gt: Date.now() } })`. -/
def readByResetToken (store : List User) (email : String) (token : JwtToken)
    (now : Nat) : Option User :=
  store.find? (fun u =>
    u.email == email &&
    decide (u.resetPasswordToken = some token) &&
    (match u.resetPasswordExpires with
     | some e => decide (now < e)
     | none => false))

/-- `GlobalDao.create` on the `User` model: `save()` runs the schema
validators and the unique index on `email` rejects duplicates; failures
are thrown (`Except.error`). -/
def userDaoCreate (store : List User) (u : User) : Except String (List User) :=
  if !(userValid u) then
    Except.error "Error creating document: validation failed"
  else if (readByEmail store u.email).isSome then
    Except.error "Error creating document: duplicate key"
  else
    Except.ok (store ++ [u])

/-- `GlobalDao.update` on the `User` model: `findByIdAndUpdate` with
`runValidators: true`; throws when the document is missing, when the
updated document fails the schema validators, or when the unique index on
`email` is violated. -/
def userDaoUpdate (store : List User) (id : String) (updated : User) :
    Except String (List User) :=
  if !(userValid updated) then
    Except.error "Error updating document by ID: validation failed"
  else if store.any (fun v => v.email == updated.email && !(v._id == id)) then
    Except.error "Error updating document by ID: duplicate key"
  else
    match store.find? (fun v => v._id == id) with
    | none => Except.error "Error updating document by ID: Document not found"
    | some _ => Except.ok (store.map (fun v => if v._id == id then updated else v))

/-- `ReviewDAO.findByUserAndMovie`: `Review.findOne({ userId, movieId })`. -/
def findByUserAndMovie (store : List Review) (userId movieId : String) :
    Option Review :=
  store.find? (fun r => r.userId == userId && r.movieId == movieId)

/-- `GlobalDao.create` on the `Review` model: the `trim` setter runs on
the comment, `save()` runs the schema validators, and the unique
`(userId, movieId)` index rejects duplicates.  `storeFail` injects an
underlying store failure with the given internal detail text, which
`GlobalDao.create` wraps as `Error creating document: ...`. -/
def reviewDaoCreate (store : List Review) (storeFail : Option String)
    (r : Review) : Except String (List Review) :=
  match storeFail with
  | some detail => Except.error ("Error creating document: " ++ detail)
  | none =>
    let saved := { r with comment := strTrim r.comment }
    if !(reviewValid saved) then
      Except.error "Error creating document: validation failed"
    else if (findByUserAndMovie store r.userId r.movieId).isSome then
      Except.error "Error creating document: duplicate key"
    else
      Except.ok (store ++ [saved])

/-- The update document `ReviewController.update` forwards (`req.body`):
an optional new comment and an optional new rating (the `userId` and
`movieId` fields it also carries re-set the matched values unchanged). -/
structure ReviewPatch where
  comment : Option String
  rating : Option ℚ
deriving DecidableEq

/-- Application of a patch to a review document.  The `trim` setter still
runs on an updated comment, but NO validator runs: the
`Review.findOneAndUpdate` call in `ReviewDAO.updateByUserAndMovie` passes
no `runValidators` option, and Mongoose skips schema validation on
`findOneAndUpdate` by default. -/
def applyReviewPatch (r : Review) (p : ReviewPatch) : Review :=
  { r with
    comment := match p.comment with | some c => strTrim c | none => r.comment,
    rating := p.rating.getD r.rating }

/-- `ReviewDAO.updateByUserAndMovie`: `Review.findOneAndUpdate({ userId,
movieId }, data, { new: true })` — returns the updated document or `null`;
the unique pair index makes at most one document match. -/
def updateByUserAndMovie (store : List Review) (userId movieId : String)
    (data : ReviewPatch) : Option Review × List Review :=
  match findByUserAndMovie store userId movieId with
  | none => (none, store)
  | some r =>
    let updated := applyReviewPatch r data
    (some updated,
     store.map (fun x => if x.userId == userId && x.movieId == movieId then updated else x))

/-- `ReviewDAO.getAverageRating`: the aggregation `$match` on `movieId`
then `$group` with `$avg` on `rating`; `0` when no document matches. -/
def getAverageRating (store : List Review) (movieId : String) : ℚ :=
  let matching := store.filter (fun r => r.movieId == movieId)
  if 0 < matching.length then
    (matching.map Review.rating).sum / (matching.length : ℚ)
  else 0

/-- `GlobalDao.delete`: `findByIdAndDelete`; throws
`Error deleting document by ID: Document not found` when no document has
the id (ids are unique, so deleting the first match deletes the match). -/
def globalDaoDelete {T : Type} (getId : T → String) (store : List T)
    (id : String) : Except String (T × List T) :=
  match store.find? (fun x => getId x == id) with
  | none => Except.error "Error deleting document by ID: Document not found"
  | some doc => Except.ok (doc, store.filter (fun x => !(getId x == id)))

/-- JavaScript falsiness of an optional string field of `req.body`
(`!field`): missing or the empty string. -/
def optFalsy (s : Option String) : Bool :=
  match s with
  | none => true
  | some v => v == ""

/-- `ReviewController.create`: 400 on a falsy required field (`rating`
is only null-checked), 409 when `findByUserAndMovie` finds an existing
review, 201 on success; a thrown error is answered with status 500 and
`error.message` as the body's message. -/
def reviewControllerCreate (store : List Review) (storeFail : Option String)
    (newId : String) (userId movieId comment : Option String)
    (rating : Option ℚ) : HttpResponse × List Review :=
  if optFalsy userId || optFalsy movieId || optFalsy comment || rating.isNone then
    ({ status := 400, message := "Faltan campos obligatorios" }, store)
  else
    let u := userId.getD ""
    let m := movieId.getD ""
    match findByUserAndMovie store u m with
    | some _ => ({ status := 409, message := "Ya has reseñado esta película" }, store)
    | none =>
      match reviewDaoCreate store storeFail
          { _id := newId, userId := u, movieId := m,
            comment := comment.getD "", rating := rating.getD 0 } with
      | Except.error e => ({ status := 500, message := e }, store)
      | Except.ok store2 => ({ status := 201, message := "" }, store2)

/-- `ReviewController.update`: 404 when `updateByUserAndMovie` returns
`null`, 200 otherwise. -/
def reviewControllerUpdate (store : List Review) (userId movieId : String)
    (data : ReviewPatch) : HttpResponse × List Review :=
  match updateByUserAndMovie store userId movieId data with
  | (none, s) => ({ status := 404, message := "No se encontró la reseña" }, s)
  | (some _, s) => ({ status := 200, message := "" }, s)

/-- `ReviewController.delete`: answers 200 after the DAO delete; a thrown
error is answered with status 500 and `error.message` as the message. -/
def reviewControllerDelete (store : List Review) (id : String) :
    HttpResponse × List Review :=
  match globalDaoDelete Review._id store id with
  | Except.error e => ({ status := 500, message := e }, store)
  | Except.ok (_, store2) =>
    ({ status := 200, message := "Reseña eliminada correctamente" }, store2)

/-- `ReviewController.getAverageRating`: always answers 200 with
`{ movieId, average }`. -/
def reviewControllerGetAverageRating (store : List Review) (movieId : String) :
    Nat × ℚ :=
  (200, getAverageRating store movieId)

/-- `GlobalDao.create` on the `Favorite` model (required `userId` and
`movieId`; no uniqueness constraint exists for favorites). -/
def favoriteDaoCreate (store : List Favorite) (storeFail : Option String)
    (f : Favorite) : Except String (List Favorite) :=
  match storeFail with
  | some detail => Except.error ("Error creating document: " ++ detail)
  | none =>
    if f.userId == "" || f.movieId == "" then
      Except.error "Error creating document: validation failed"
    else
      Except.ok (store ++ [f])

/-- `FavoriteController.create`: 400 on missing fields, 201 on success;
any thrown error is answered 500 with the generic message `Internal
Server Error` (the detail goes only to the development console). -/
def favoriteControllerCreate (store : List Favorite) (storeFail : Option String)
    (newId : String) (userId movieId : Option String) :
    HttpResponse × List Favorite :=
  if optFalsy userId || optFalsy movieId then
    ({ status := 400, message := "Missing userId or movieId" }, store)
  else
    match favoriteDaoCreate store storeFail
        { _id := newId, userId := userId.getD "", movieId := movieId.getD "" } with
    | Except.error _ => ({ status := 500, message := "Internal Server Error" }, store)
    | Except.ok store2 => ({ status := 201, message := "" }, store2)

/-- `FavoriteController.delete`: 400 on a falsy id; then
`FavoriteDAO.delete`, whose not-found case THROWS in `GlobalDao.delete`,
landing in the catch block (500, generic message) — the `if (!deleted)`
404 branch of the controller is unreachable because the DAO never returns
`null`. -/
def favoriteControllerDelete (store : List Favorite) (id : String) :
    HttpResponse × List Favorite :=
  if id == "" then
    ({ status := 400, message := "Missing favorite ID" }, store)
  else
    match globalDaoDelete Favorite._id store id with
    | Except.error _ => ({ status := 500, message := "Internal Server Error" }, store)
    | Except.ok (_, store2) =>
      ({ status := 200, message := "Favorite deleted successfully" }, store2)

/-- `UserController`'s registration body (`req.body` of `create`). -/
structure RegisterBody where
  firstName : String
  lastName : String
  age : Nat
  email : String
  password : String
  confirmPassword : String
deriving DecidableEq

/-- `UserController.create` (register): password validation (400), email
uniqueness pre-check (409), then bcrypt-hash and `UserDAO.create` (201);
a thrown error is answered 500 with a generic message. -/
def userControllerCreate (store : List User) (newId : String)
    (body : RegisterBody) : HttpResponse × List User :=
  match passwordValidation body.password body.confirmPassword with
  | some msg => ({ status := 400, message := msg }, store)
  | none =>
    match readByEmail store body.email with
    | some _ => ({ status := 409, message := "Correo electrónico ya en uso" }, store)
    | none =>
      let newUser : User :=
        { _id := newId, firstName := body.firstName, lastName := body.lastName,
          age := body.age, email := body.email,
          password := bcryptHash body.password,
          resetPasswordToken := none, resetPasswordExpires := none }
      match userDaoCreate store newUser with
      | Except.error _ => ({ status := 500, message := "Internal Server Error" }, store)
      | Except.ok store2 => ({ status := 201, message := "" }, store2)

/-- `UserController.login`: 401 when the email is unknown or the bcrypt
comparison fails; otherwise signs a 2-hour JWT bound to `user._id`, sets
it as the `token` cookie and answers 200. -/
def login (store : List User) (email password : String) (jwtSecret : String)
    (now : Nat) : HttpResponse × Option JwtToken :=
  match readByEmail store email with
  | none => ({ status := 401, message := "Correo electrónico o contraseña inválidos" }, none)
  | some user =>
    if !(bcryptCompare password user.password) then
      ({ status := 401, message := "Correo electrónico o contraseña inválidos" }, none)
    else
      let token := jwtSign user._id jwtSecret now (2 * 60 * 60 * 1000)
      ({ status := 200, message := "Login successful" }, some token)

/-- `authenticateToken` (src/api/middlewares/authMiddleware.ts): 401 when
the `token` cookie is missing or `jwt.verify` fails, otherwise yields the
decoded `userId`. -/
def authenticateToken (cookieToken : Option JwtToken) (jwtSecret : String)
    (now : Nat) : Except HttpResponse String :=
  match cookieToken with
  | none => Except.error { status := 401, message := "No se proporcionó token de autenticación" }
  | some token =>
    match jwtVerify token jwtSecret now with
    | some uid => Except.ok uid
    | none => Except.error { status := 401, message := "Token inválido o expirado" }

/-- `UserController.forgotPassword`: 202 with a generic message when the
email is unknown; otherwise signs a 1-hour reset JWT, stores it with its
expiry on the user via `UserDAO.update`, dispatches the mail and answers
200 with `Password reset email sent` (500 if the update throws). -/
def forgotPassword (store : List User) (email : String) (jwtSecret : String)
    (now : Nat) : HttpResponse × List User :=
  match readByEmail store email with
  | none =>
    ({ status := 202,
       message := "If the email is registered, you will receive a password reset email" }, store)
  | some user =>
    let token := jwtSign user._id jwtSecret now (60 * 60 * 1000)
    let updated := { user with
      resetPasswordToken := some token,
      resetPasswordExpires := some (now + 3600000) }
    match userDaoUpdate store user._id updated with
    | Except.error _ => ({ status := 500, message := "Internal Server Error" }, store)
    | Except.ok store2 => ({ status := 200, message := "Password reset email sent" }, store2)

/-- `UserController.resetPassword`: 400 when `readByResetToken` finds no
user for the (email, token) pair with a future expiry; 400 when the new
password fails `passwordValidation`; otherwise hashes the new password,
clears `resetPasswordToken` and `resetPasswordExpires` and persists via
`UserDAO.update` (500 if that throws). -/
def resetPassword (store : List User) (email : String) (token : JwtToken)
    (password confirmPassword : String) (now : Nat) :
    HttpResponse × List User :=
  match readByResetToken store email token now with
  | none => ({ status := 400, message := "Token inválido o expirado" }, store)
  | some user =>
    match passwordValidation password confirmPassword with
    | some msg => ({ status := 400, message := msg }, store)
    | none =>
      let updated := { user with
        password := bcryptHash password,
        resetPasswordToken := none,
        resetPasswordExpires := none }
      match userDaoUpdate store user._id updated with
      | Except.error _ => ({ status := 500, message := "Inténtalo de nuevo más tarde" }, store)
      | Except.ok store2 => ({ status := 200, message := "Password has been reset successfully" }, store2)

/-- The body of an `editLoggedUser` request: the four allowed fields plus
fields a client may also send but which the `allowedFields` filter
ignores (`password`, `resetPasswordToken`, `resetPasswordExpires`). -/
structure EditBody where
  firstName : Option String
  lastName : Option String
  age : Option Nat
  email : Option String
  password : Option String
  resetPasswordToken : Option (Option JwtToken)
  resetPasswordExpires : Option (Option Nat)
deriving DecidableEq

/-- The `Object.assign(user, updates)` step of `editLoggedUser`: only the
fields of `allowedFields = [firstName, lastName, age, email]` present in
the body are copied onto the user. -/
def applyAllowedEdits (u : User) (body : EditBody) : User :=
  { u with
    firstName := body.firstName.getD u.firstName,
    lastName := body.lastName.getD u.lastName,
    age := body.age.getD u.age,
    email := body.email.getD u.email }

/-- `UserController.editLoggedUser`: 401 without an authenticated user id;
the `UserDAO.read` not-found case throws in `GlobalDao.read`, landing in
the catch block (500) — the controller's 404 guard is unreachable; on
success the edited user is persisted via `UserDAO.update` and 200 is
answered (500 if the update throws). -/
def editLoggedUser (store : List User) (authUserId : Option String)
    (body : EditBody) : HttpResponse × List User :=
  match authUserId with
  | none => ({ status := 401, message := "No token provided" }, store)
  | some userId =>
    match store.find? (fun u => u._id == userId) with
    | none => ({ status := 500, message := "Error getting user information" }, store)
    | some user =>
      let updated := applyAllowedEdits user body
      match userDaoUpdate store user._id updated with
      | Except.error _ => ({ status := 500, message := "Error getting user information" }, store)
      | Except.ok store2 =>
        ({ status := 200, message := "User information updated successfully" }, store2)

/-- A stored review used as concrete test data. -/
def sampleReview : Review :=
  { _id := "r1", userId := "u1", movieId := "m1", comment := "Great movie", rating := 3 }

/-- A second stored review for the same movie, by another user. -/
def sampleReview2 : Review :=
  { _id := "r2", userId := "u2", movieId := "m1", comment := "Nice one too", rating := 5 }

/-- C6: evaluated at an id that identifies no stored favorite (resp. review),
both delete handlers answer status 500, not 404: `GlobalDao.delete` throws
`Document not found` instead of returning `null`, so control lands in the
catch blocks and `FavoriteController.delete`'s 404 branch is unreachable. -/
theorem c6_delete_missing_id_answers_500 :
    favoriteControllerDelete [] "64f000000000000000000000" =
      ({ status := 500, message := "Internal Server Error" }, []) ∧
    reviewControllerDelete [] "64f000000000000000000000" =
      ({ status := 500, message := "Error deleting document by ID: Document not found" }, []) := by
  constructor <;> rfl

/-- C7: starting from a store holding one valid review, the
update-by-(userId, movieId) operation accepts a patch with rating 99 and
answers 200, and the stored review afterwards violates the 1–5 rating
invariant: `ReviewDAO.updateByUserAndMovie` passes no `runValidators`
option, so the schema validators are skipped. -/
theorem c7_update_stores_invalid_rating :
    reviewValid sampleReview = true ∧
    (reviewControllerUpdate [sampleReview] "u1" "m1"
      { comment := none, rating := some 99 }).1.status = 200 ∧
    (reviewControllerUpdate [sampleReview] "u1" "m1"
      { comment := none, rating := some 99 }).2 =
      [{ sampleReview with rating := 99 }] ∧
    reviewValid { sampleReview with rating := 99 } = false := by
  refine ⟨by decide, rfl, by decide, by decide⟩

/-- C8: `getAverageRating` returns 0 when the store holds no review of the
movie, and otherwise the arithmetic mean (sum of the ratings divided by
their number) of the movie's reviews; the controller wraps it in a 200. -/
theorem c8_average_rating_spec (store : List Review) (movieId : String) :
    (store.filter (fun r => r.movieId == movieId) = [] →
      getAverageRating store movieId = 0) ∧
    (store.filter (fun r => r.movieId == movieId) ≠ [] →
      getAverageRating store movieId =
        ((store.filter (fun r => r.movieId == movieId)).map Review.rating).sum /
          ((store.filter (fun r => r.movieId == movieId)).length : ℚ)) ∧
    reviewControllerGetAverageRating store movieId = (200, getAverageRating store movieId) ∧
    getAverageRating [sampleReview, sampleReview2] "m1" = 4 := by
  refine ⟨?_, ?_, rfl, ?_⟩
  · intro h
    simp [getAverageRating, h]
  · intro h
    have hlen : 0 < (store.filter (fun r => r.movieId == movieId)).length :=
      List.length_pos.mpr h
    simp [getAverageRating, hlen]
  · norm_num [getAverageRating, sampleReview, sampleReview2]

/-- Witness for C8: no reviews of `m1` gives average 0; ratings [3, 5]
give average 4. -/
theorem c8_average_rating_spec_witness :
    getAverageRating [] "m1" = 0 ∧
    getAverageRating [sampleReview, sampleReview2] "m1" = 4 := by
  constructor
  · exact (c8_average_rating_spec [] "m1").1 rfl
  · exact (c8_average_rating_spec [] "m1").2.2.2

/-- C4: a password under 8 characters, or with no uppercase letter, no
digit or no special character, is always rejected: registration answers
400 without creating a user, and `resetPassword` answers 400 without
modifying the store, whatever the rest of the request. -/
theorem c4_weak_password_always_rejected (p : String)
    (hbad : p.length < 8 ∨ p.data.any isUppercaseChar = false ∨
      p.data.any isDigitChar = false ∨ p.data.any isSpecialChar = false) :
    (∀ (store : List User) (newId : String) (body : RegisterBody),
      body.password = p →
        (userControllerCreate store newId body).1.status = 400 ∧
        (userControllerCreate store newId body).2 = store) ∧
    (∀ (store : List User) (email : String) (token : JwtToken)
        (confirm : String) (now : Nat),
      (resetPassword store email token p confirm now).1.status = 400 ∧
      (resetPassword store email token p confirm now).2 = store) := by
  have hreg : passwordRegexTest p = false := by
    rw [Bool.eq_false_iff]
    intro htrue
    unfold passwordRegexTest at htrue
    simp only [Bool.and_eq_true, decide_eq_true_eq] at htrue
    rcases hbad with h | h | h | h
    · omega
    · rw [htrue.1.1.1.1] at h
      cases h
    · rw [htrue.1.1.1.2] at h
      cases h
    · rw [htrue.1.1.2] at h
      cases h
  have hval : ∀ confirm : String, (passwordValidation p confirm).isSome = true := by
    intro confirm
    unfold passwordValidation
    by_cases hc : p ≠ confirm
    · simp [hc]
    · simp [hc, hreg]
  constructor
  · intro store newId body hbp
    obtain ⟨msg, hmsg⟩ := Option.isSome_iff_exists.mp (hval body.confirmPassword)
    constructor <;> simp [userControllerCreate, hbp, hmsg]
  · intro store email token confirm now
    cases hfind : readByResetToken store email token now with
    | none => constructor <;> simp [resetPassword, hfind]
    | some user =>
      obtain ⟨msg, hmsg⟩ := Option.isSome_iff_exists.mp (hval confirm)
      constructor <;> simp [resetPassword, hfind, hmsg]

/-- Witness for C4: the 6-character password `short1` is under 8
characters and registration with it answers 400. -/
theorem c4_weak_password_always_rejected_witness :
    ("short1".length < 8) ∧
    (userControllerCreate [] "u1"
      { firstName := "Ana", lastName := "Gomez", age := 20, email := "ana@mail.com",
        password := "short1", confirmPassword := "short1" }).1.status = 400 := by
  refine ⟨by decide, ?_⟩
  exact ((c4_weak_password_always_rejected "short1" (Or.inl (by decide))).1 [] "u1" _ rfl).1

/-- C5: when a review by the same user for the same movie already exists,
the create-review handler answers 409 and leaves the store unchanged. -/
theorem c5_duplicate_review_conflict (store : List Review) (storeFail : Option String)
    (newId u m c : String) (q : ℚ) (r : Review)
    (hu : u ≠ "") (hm : m ≠ "") (hc : c ≠ "")
    (hdup : findByUserAndMovie store u m = some r) :
    reviewControllerCreate store storeFail newId (some u) (some m) (some c) (some q) =
      ({ status := 409, message := "Ya has reseñado esta película" }, store) := by
  have hu2 : (u == "") = false := beq_eq_false_iff_ne.mpr hu
  have hm2 : (m == "") = false := beq_eq_false_iff_ne.mpr hm
  have hc2 : (c == "") = false := beq_eq_false_iff_ne.mpr hc
  simp [reviewControllerCreate, optFalsy, hu2, hm2, hc2, hdup]

/-- Witness for C5: creating a second review for the pair (`u1`, `m1`),
for which `sampleReview` is stored, answers 409 and adds nothing. -/
theorem c5_duplicate_review_conflict_witness :
    ("u1" ≠ "") ∧
    reviewControllerCreate [sampleReview] none "r9" (some "u1") (some "m1")
        (some "Another take") (some 4) =
      ({ status := 409, message := "Ya has reseñado esta película" }, [sampleReview]) := by
  refine ⟨by decide, ?_⟩
  exact c5_duplicate_review_conflict [sampleReview] none "r9" "u1" "m1" "Another take" 4
    sampleReview (by decide) (by decide) (by decide) (by decide)

/-- A registered user used as concrete test data; the stored password is
the bcrypt hash of `Passw0rd!`. -/
def sampleUser : User :=
  { _id := "507f191e810c19729de860ea", firstName := "Ana", lastName := "Gomez",
    age := 20, email := "ana@mail.com", password := bcryptHash "Passw0rd!",
    resetPasswordToken := none, resetPasswordExpires := none }

/-- C1: for a registered user whose stored password is the bcrypt hash of
the submitted password, `login` answers 200 and issues a token such that
`authenticateToken`, with the same secret and before the 2-hour expiry,
yields exactly that user's id. -/
theorem c1_login_then_verify_yields_user_id
    (store : List User) (email pw jwtSecret : String) (u : User) (now now2 : Nat)
    (hfind : readByEmail store email = some u)
    (hpw : u.password = bcryptHash pw)
    (hnow : now2 < now + 2 * 60 * 60 * 1000) :
    (login store email pw jwtSecret now).1.status = 200 ∧
    ∃ t : JwtToken, (login store email pw jwtSecret now).2 = some t ∧
      authenticateToken (some t) jwtSecret now2 = Except.ok u._id := by
  have hcmp : bcryptCompare pw u.password = true := by
    rw [hpw]
    simp [bcryptCompare]
  refine ⟨?_, jwtSign u._id jwtSecret now (2 * 60 * 60 * 1000), ?_, ?_⟩
  · simp [login, hfind, hcmp]
  · simp [login, hfind, hcmp]
  · simp [authenticateToken, jwtVerify, jwtSign, hnow]

/-- Witness for C1: `sampleUser` logs in with the correct password at time
1000 and the issued token verifies at time 2000 to `sampleUser._id`. -/
theorem c1_login_then_verify_yields_user_id_witness :
    readByEmail [sampleUser] "ana@mail.com" = some sampleUser ∧
    (login [sampleUser] "ana@mail.com" "Passw0rd!" "topsecret" 1000).1.status = 200 ∧
    ∃ t : JwtToken,
      (login [sampleUser] "ana@mail.com" "Passw0rd!" "topsecret" 1000).2 = some t ∧
      authenticateToken (some t) "topsecret" 2000 = Except.ok sampleUser._id := by
  refine ⟨by decide, ?_⟩
  exact c1_login_then_verify_yields_user_id [sampleUser] "ana@mail.com" "Passw0rd!"
    "topsecret" sampleUser 1000 2000 (by decide) rfl (by decide)

/-- C3 counterexample: two `forgotPassword` requests, one with the
registered email and one with an unknown one, are answered with different
statuses (200 vs 202) and different messages, so the response does reveal
whether the email is registered. -/
theorem c3_forgot_password_responses_differ :
    (forgotPassword [sampleUser] "ana@mail.com" "topsecret" 1000).1 =
      { status := 200, message := "Password reset email sent" } ∧
    (forgotPassword [sampleUser] "missing@mail.com" "topsecret" 1000).1 =
      { status := 202,
        message := "If the email is registered, you will receive a password reset email" } ∧
    (forgotPassword [sampleUser] "ana@mail.com" "topsecret" 1000).1 ≠
      (forgotPassword [sampleUser] "missing@mail.com" "topsecret" 1000).1 := by
  refine ⟨by decide, by decide, by decide⟩

/-- C3 amended: `forgotPassword` answers 202 with the generic message and
an unchanged store when the email is not registered, and 200 (`Password
reset email sent`), or 500 if the store update throws, when it is; the two
cases are thus distinguishable by status and message. -/
theorem c3_forgot_password_amended (store : List User) (email jwtSecret : String)
    (now : Nat) :
    (readByEmail store email = none →
      forgotPassword store email jwtSecret now =
        ({ status := 202,
           message := "If the email is registered, you will receive a password reset email" },
         store)) ∧
    (∀ u, readByEmail store email = some u →
      (forgotPassword store email jwtSecret now).1.status = 200 ∨
      (forgotPassword store email jwtSecret now).1.status = 500) := by
  constructor
  · intro h
    simp [forgotPassword, h]
  · intro u h
    cases hupd : userDaoUpdate store u._id
        { u with
          resetPasswordToken := some (jwtSign u._id jwtSecret now (60 * 60 * 1000)),
          resetPasswordExpires := some (now + 3600000) } with
    | error e =>
      right
      simp [forgotPassword, h, hupd]
    | ok s2 =>
      left
      simp [forgotPassword, h, hupd]

/-- Witness for C3 amended: on an empty store every email is unregistered
and the answer is the 202 acknowledgment. -/
theorem c3_forgot_password_amended_witness :
    forgotPassword [] "x@y.z" "topsecret" 0 =
      ({ status := 202,
         message := "If the email is registered, you will receive a password reset email" },
       []) :=
  (c3_forgot_password_amended [] "x@y.z" "topsecret" 0).1 rfl

/-- C9 counterexample: a store failure during create-review is answered
with the failure's internal detail text as the client-facing message, not
a generic one. -/
theorem c9_review_error_detail_leaks :
    (reviewControllerCreate []
        (some "MongoServerError: connect ECONNREFUSED 10.0.0.5:27017")
        "r1" (some "u1") (some "m1") (some "Nice film") (some 4)).1 =
      { status := 500,
        message := "Error creating document: MongoServerError: connect ECONNREFUSED 10.0.0.5:27017" } := by
  decide

/-- C9 amended: on an underlying store failure with any internal detail,
`FavoriteController.create` (like the user handlers) answers 500 with the
generic `Internal Server Error`, but `ReviewController.create` answers 500
with the wrapped internal detail text as the body's message. -/
theorem c9_error_detail_amended (storeF : List Favorite) (storeR : List Review)
    (detail newIdF newIdR u m c : String) (q : ℚ)
    (hu : u ≠ "") (hm : m ≠ "") (hc : c ≠ "")
    (hnodup : findByUserAndMovie storeR u m = none) :
    favoriteControllerCreate storeF (some detail) newIdF (some u) (some m) =
      ({ status := 500, message := "Internal Server Error" }, storeF) ∧
    reviewControllerCreate storeR (some detail) newIdR (some u) (some m) (some c) (some q) =
      ({ status := 500, message := "Error creating document: " ++ detail }, storeR) := by
  have hu2 : (u == "") = false := beq_eq_false_iff_ne.mpr hu
  have hm2 : (m == "") = false := beq_eq_false_iff_ne.mpr hm
  have hc2 : (c == "") = false := beq_eq_false_iff_ne.mpr hc
  constructor
  · simp [favoriteControllerCreate, optFalsy, hu2, hm2, favoriteDaoCreate]
  · simp [reviewControllerCreate, optFalsy, hu2, hm2, hc2, hnodup, reviewDaoCreate]

/-- Witness for C9 amended: the same injected failure detail is hidden by
the favorite handler and echoed by the review handler. -/
theorem c9_error_detail_amended_witness :
    ("u1" ≠ "") ∧
    favoriteControllerCreate [] (some "timeout at shard0") "f1" (some "u1") (some "m1") =
      ({ status := 500, message := "Internal Server Error" }, []) ∧
    reviewControllerCreate [] (some "timeout at shard0") "r1" (some "u1") (some "m1")
        (some "Nice film") (some 4) =
      ({ status := 500, message := "Error creating document: timeout at shard0" }, []) := by
  refine ⟨by decide, ?_⟩
  exact c9_error_detail_amended [] [] "timeout at shard0" "f1" "r1" "u1" "m1" "Nice film" 4
    (by decide) (by decide) (by decide) (by decide)

/-- Shape of a successful `GlobalDao.update` on users: the resulting store
is the original with every document of that id replaced by the update. -/
theorem userDaoUpdate_ok_shape {store : List User} {id : String} {updated : User}
    {s2 : List User} (h : userDaoUpdate store id updated = Except.ok s2) :
    s2 = store.map (fun v => if v._id == id then updated else v) := by
  unfold userDaoUpdate at h
  by_cases h1 : (!(userValid updated)) = true
  · rw [if_pos h1] at h
    cases h
  · rw [if_neg h1] at h
    by_cases h2 : (store.any fun v => v.email == updated.email && !(v._id == id)) = true
    · rw [if_pos h2] at h
      cases h
    · rw [if_neg h2] at h
      cases hf : store.find? (fun v => v._id == id) with
      | none =>
        simp only [hf] at h
        exact Except.noConfusion h
      | some w =>
        simp only [hf] at h
        injection h with h'
        exact h'.symm

/-- In a store whose ids are pairwise distinct, a member carrying the id
that `find?` matched is the found element itself. -/
theorem mem_id_unique {store : List User} {uid : String} {user u : User}
    (hids : store.Pairwise (fun a b => a._id ≠ b._id))
    (hfindid : store.find? (fun v => v._id == uid) = some user)
    (hmem : u ∈ store) (hid : u._id = uid) : u = user := by
  induction store with
  | nil => cases hmem
  | cons a l ih =>
    rw [List.pairwise_cons] at hids
    by_cases ha : (a._id == uid) = true
    · rw [List.find?_cons_of_pos (p := fun (v : User) => v._id == uid) _ ha] at hfindid
      injection hfindid with huser
      rcases List.mem_cons.mp hmem with rfl | hmem'
      · exact huser
      · exact absurd ((beq_iff_eq.mp ha).trans hid.symm) (hids.1 u hmem')
    · rw [List.find?_cons_of_neg (p := fun (v : User) => v._id == uid) _ ha] at hfindid
      rcases List.mem_cons.mp hmem with rfl | hmem'
      · exact absurd (beq_iff_eq.mpr hid) ha
      · exact ih hids.2 hfindid hmem'

/-- C2: when a `resetPassword` call succeeds (valid (email, token) pair
with future expiry, policy-passing new password) in a store whose emails
are unique, a second call with the same email and token answers 400
`Token inválido o expirado` and leaves the store — in particular the
stored password — unchanged: the first call cleared
`resetPasswordToken`. -/
theorem c2_reset_token_single_use (store : List User) (email pw confirm : String)
    (token : JwtToken) (u : User) (now now2 : Nat)
    (hfind : readByResetToken store email token now = some u)
    (hpol : passwordValidation pw confirm = none)
    (hvalid : userValid { u with
      password := bcryptHash pw,
      resetPasswordToken := none,
      resetPasswordExpires := none } = true)
    (huniq : ∀ v ∈ store, v.email = email → v = u) :
    (resetPassword store email token pw confirm now).1.status = 200 ∧
    resetPassword (resetPassword store email token pw confirm now).2
        email token pw confirm now2 =
      ({ status := 400, message := "Token inválido o expirado" },
       (resetPassword store email token pw confirm now).2) := by
  have hfind' := hfind
  unfold readByResetToken at hfind'
  have hmem : u ∈ store := List.mem_of_find?_eq_some hfind'
  have hpredu :=
    List.find?_some (p := fun (v : User) =>
      v.email == email && decide (v.resetPasswordToken = some token) &&
        (match v.resetPasswordExpires with
         | some e => decide (now < e)
         | none => false)) hfind'
  have hue : u.email = email := by
    simp only [Bool.and_eq_true, beq_iff_eq] at hpredu
    exact hpredu.1.1
  have hany : (store.any fun v =>
      v.email == ({ u with
        password := bcryptHash pw,
        resetPasswordToken := none,
        resetPasswordExpires := none } : User).email && !(v._id == u._id)) = false := by
    by_contra hx
    rw [Bool.not_eq_false, List.any_eq_true] at hx
    obtain ⟨v, hv, hvp⟩ := hx
    rw [Bool.and_eq_true] at hvp
    obtain ⟨hvE, hvI⟩ := hvp
    have hvE' : v.email = u.email := beq_iff_eq.mp hvE
    have hveq : v = u := huniq v hv (hvE'.trans hue)
    rw [hveq] at hvI
    simp at hvI
  have hfindid : (store.find? fun v => v._id == u._id).isSome = true := by
    rw [List.find?_isSome]
    exact ⟨u, hmem, by simp⟩
  obtain ⟨w, hw⟩ := Option.isSome_iff_exists.mp hfindid
  have h1 : resetPassword store email token pw confirm now =
      ({ status := 200, message := "Password has been reset successfully" },
       store.map fun v => if v._id == u._id then
         { u with
           password := bcryptHash pw,
           resetPasswordToken := none,
           resetPasswordExpires := none } else v) := by
    simp [resetPassword, hfind, hpol, userDaoUpdate, hvalid, hany, hw]
  have hnone2 : readByResetToken
      (store.map fun v => if v._id == u._id then
        { u with
          password := bcryptHash pw,
          resetPasswordToken := none,
          resetPasswordExpires := none } else v) email token now2 = none := by
    unfold readByResetToken
    rw [List.find?_eq_none]
    intro x hxmem
    obtain ⟨v, hv, rfl⟩ := List.mem_map.mp hxmem
    by_cases hid : (v._id == u._id) = true
    · rw [if_pos hid]
      simp
    · rw [if_neg hid]
      have hne : v.email ≠ email := by
        intro he
        have hveq : v = u := huniq v hv he
        rw [hveq] at hid
        simp at hid
      simp [hne]
  constructor
  · rw [h1]
  · simp only [h1]
    unfold resetPassword
    simp only [hnone2]

/-- The reset token stored for `sampleUserWithReset`, expiring at 3600000. -/
def sampleResetToken : JwtToken :=
  jwtSign "507f191e810c19729de860ea" "topsecret" 0 3600000

/-- `sampleUser` with a pending password-reset token. -/
def sampleUserWithReset : User :=
  { sampleUser with
    resetPasswordToken := some sampleResetToken,
    resetPasswordExpires := some 3600000 }

/-- Witness for C2: after `sampleUserWithReset` resets the password with
the stored token at time 1000, repeating the call at time 2000 answers
400 and changes nothing. -/
theorem c2_reset_token_single_use_witness :
    readByResetToken [sampleUserWithReset] "ana@mail.com" sampleResetToken 1000 =
      some sampleUserWithReset ∧
    resetPassword
        (resetPassword [sampleUserWithReset] "ana@mail.com" sampleResetToken
          "NewPass1!" "NewPass1!" 1000).2
        "ana@mail.com" sampleResetToken "NewPass1!" "NewPass1!" 2000 =
      ({ status := 400, message := "Token inválido o expirado" },
       (resetPassword [sampleUserWithReset] "ana@mail.com" sampleResetToken
         "NewPass1!" "NewPass1!" 1000).2) := by
  refine ⟨by decide, ?_⟩
  exact (c2_reset_token_single_use [sampleUserWithReset] "ana@mail.com" "NewPass1!"
    "NewPass1!" sampleResetToken sampleUserWithReset 1000 2000 (by decide) (by decide)
    (by decide) (by decide)).2

/-- C10: in a store with pairwise-distinct ids, `editLoggedUser` relates
the old and new stores pointwise so that every user's `password`,
`resetPasswordToken`, `resetPasswordExpires` and `_id` are unchanged,
whatever (possibly disallowed) fields the request body carries; only
`firstName`, `lastName`, `age` and `email` can differ. -/
theorem c10_edit_profile_frame (store : List User) (authUserId : Option String)
    (body : EditBody) (hids : store.Pairwise (fun a b => a._id ≠ b._id)) :
    List.Forall₂ (fun v w =>
        w.password = v.password ∧ w.resetPasswordToken = v.resetPasswordToken ∧
        w.resetPasswordExpires = v.resetPasswordExpires ∧ w._id = v._id)
      store (editLoggedUser store authUserId body).2 := by
  have hrefl : List.Forall₂ (fun v w =>
      w.password = v.password ∧ w.resetPasswordToken = v.resetPasswordToken ∧
      w.resetPasswordExpires = v.resetPasswordExpires ∧ w._id = v._id) store store :=
    List.forall₂_same.mpr (fun v _ => ⟨rfl, rfl, rfl, rfl⟩)
  cases authUserId with
  | none => simp [editLoggedUser]
  | some uid =>
    cases hfindid : store.find? (fun v => v._id == uid) with
    | none => simp [editLoggedUser, hfindid]
    | some user =>
      cases hupd : userDaoUpdate store user._id (applyAllowedEdits user body) with
      | error e => simp [editLoggedUser, hfindid, hupd]
      | ok s2 =>
        have hs2 := userDaoUpdate_ok_shape hupd
        have hgoal2 : (editLoggedUser store (some uid) body).2 = s2 := by
          simp [editLoggedUser, hfindid, hupd]
        rw [hgoal2, hs2, List.forall₂_map_right_iff, List.forall₂_same]
        intro v hv
        by_cases hvid : (v._id == user._id) = true
        · have hpu := List.find?_some (p := fun (v : User) => v._id == uid) hfindid
          have huid : user._id = uid := beq_iff_eq.mp hpu
          have hveq : v = user :=
            mem_id_unique hids hfindid hv ((beq_iff_eq.mp hvid).trans huid)
          rw [if_pos hvid, hveq]
          exact ⟨rfl, rfl, rfl, rfl⟩
        · rw [if_neg hvid]
          exact ⟨rfl, rfl, rfl, rfl⟩

/-- Witness for C10: an edit request for `sampleUser` that renames them
and also tries to smuggle a `password` field leaves password, reset
fields and id untouched. -/
theorem c10_edit_profile_frame_witness :
    ([sampleUser].Pairwise (fun a b => a._id ≠ b._id)) ∧
    List.Forall₂ (fun v w =>
        w.password = v.password ∧ w.resetPasswordToken = v.resetPasswordToken ∧
        w.resetPasswordExpires = v.resetPasswordExpires ∧ w._id = v._id)
      [sampleUser]
      (editLoggedUser [sampleUser] (some "507f191e810c19729de860ea")
        { firstName := some "Maria", lastName := none, age := none, email := none,
          password := some "Hacked123!", resetPasswordToken := none,
          resetPasswordExpires := none }).2 := by
  refine ⟨by decide, ?_⟩
  exact c10_edit_profile_frame [sampleUser] (some "507f191e810c19729de860ea")
    { firstName := some "Maria", lastName := none, age := none, email := none,
      password := some "Hacked123!", resetPasswordToken := none,
      resetPasswordExpires := none } (by decide)

end Lumix
